import Mathlib

/-!
Shallow embedding of the provider-dispatch core of the LawBot chatbot
(`src/chatbot/views.py`): the functions `chat_api`,
`get_ai_response_external_only`, `try_openai_api`, `try_openrouter_api`
and `try_alternative_openai_api`.

The network is modelled by an environment `env : Nat -> HttpOutcome`
giving the observable outcome of the k-th outbound HTTP POST made during
one dispatch call.  The message store (`Message.objects.all()`, whose
model class `models.py` is not part of the sources here) is modelled as
a list of turns in chronological order, passed explicitly.
-/

set_option linter.unusedVariables false

namespace LawBot

/-- A conversation turn, as stored by the `Message` model: a role string
and a content string.  Modelled from the spec: `models.py` is absent from
the sources, and the spec states the store lists turns in append-only
chronological order, so the store is a `List Turn`, oldest first. -/
structure Turn where
  role : String
  content : String
deriving DecidableEq, Repr

/-- Result of extracting `resp.json()["choices"][0]["message"]["content"]`
from a 200 response body: either the first completion choice's text, or
the string of the exception the extraction raised. -/
inductive ParseResult where
  | ok (content : String)
  | error (excMsg : String)
deriving DecidableEq, Repr

/-- The observable outcome of one outbound `requests.post` call:
an HTTP response with a status code, raw body text and (for 200 bodies)
the extraction result; or the `requests.exceptions.Timeout` exception;
or another `requests.exceptions.RequestException` (transport failure);
or any other unexpected exception. -/
inductive HttpOutcome where
  | resp (status : Nat) (body : String) (parse : ParseResult)
  | timeoutExc
  | requestExc (msg : String)
  | otherExc (msg : String)
deriving DecidableEq, Repr

/-- The dictionary returned by each attempt function and by the
dispatcher: `{'success': True, 'response': ...}` or
`{'success': False, 'error': ..., 'error_type': ...}` (the
`error_type` key is absent in `try_alternative_openai_api`, hence the
`Option`). -/
inductive ApiResult where
  | success (response : String)
  | failure (error : String) (errorType : Option String)
deriving DecidableEq, Repr

/-- `response.get('success')` truthiness. -/
def ApiResult.isSuccess : ApiResult → Bool
  | .success _ => true
  | .failure _ _ => false

/-- One outbound request, as assembled in the source: endpoint URL,
model name, `messages` array, `max_tokens`, `temperature`, `timeout`,
bearer credential, and any extra headers (OpenRouter adds
`HTTP-Referer` and `X-Title`). -/
structure ApiRequest where
  url : String
  model : String
  messages : List Turn
  maxTokens : Nat
  temperature : Rat
  timeout : Nat
  bearer : String
  extraHeaders : List (String × String)
deriving DecidableEq, Repr

def openaiEndpoint : String := "https://api.openai.com/v1/chat/completions"

def openrouterEndpoint : String := "https://openrouter.ai/api/v1/chat/completions"

/-- The system prompt inserted at position 0 of `messages_for_gpt`
(identical in all three attempt functions). -/
def systemPrompt : Turn :=
  { role := "system"
    content := "You are a legal assistant. Provide general legal information, but always say: 'This is not legal advice.'" }

/-- `messages_for_gpt` after the `insert(0, system_prompt)`: the system
prompt prepended to the full store contents. -/
def mkMessages (db : List Turn) : List Turn := systemPrompt :: db

/-- Classification of one OpenAI-endpoint response in `try_openai_api`:
the `if/elif` chain on `resp.status_code` plus the three `except`
clauses.  Returns the result dictionary together with the list of
`error_occurred.send` notifications emitted (as (error_type,
error_message) pairs). -/
def classifyOpenai (o : HttpOutcome) : ApiResult × List (String × String) :=
  match o with
  | .resp s body parse =>
    if s = 200 then
      match parse with
      | .ok c => (.success c, [])
      | .error e => (.failure ("OpenAI API error: " ++ e) (some "api_error"), [])
    else if s = 401 then
      let msg := "Invalid OpenAI API key. Please check your API key configuration."
      (.failure msg (some "auth_error"), [("auth_error", msg)])
    else if s = 429 then
      let msg := "Rate limit exceeded. Please try again later."
      (.failure msg (some "rate_limit"), [("rate_limit", msg)])
    else
      let msg := "OpenAI API Error (Status " ++ toString s ++ "): " ++ body
      (.failure msg (some "api_error"), [("api_error", msg)])
  | .timeoutExc =>
      (.failure "OpenAI API request timed out. Please try again." (some "timeout"), [])
  | .requestExc e =>
      (.failure ("OpenAI API network error: " ++ e) (some "network_error"), [])
  | .otherExc e =>
      (.failure ("OpenAI API error: " ++ e) (some "api_error"), [])

/-- Classification of one OpenRouter response in `try_openrouter_api`:
same shape as `classifyOpenai` with the OpenRouter message texts. -/
def classifyOpenrouter (o : HttpOutcome) : ApiResult × List (String × String) :=
  match o with
  | .resp s body parse =>
    if s = 200 then
      match parse with
      | .ok c => (.success c, [])
      | .error e => (.failure ("OpenRouter API error: " ++ e) (some "api_error"), [])
    else if s = 401 then
      let msg := "Invalid OpenRouter API key. Please check your API key configuration."
      (.failure msg (some "auth_error"), [("auth_error", msg)])
    else if s = 429 then
      let msg := "OpenRouter rate limit exceeded. Please try again later."
      (.failure msg (some "rate_limit"), [("rate_limit", msg)])
    else
      let msg := "OpenRouter API Error (Status " ++ toString s ++ "): " ++ body
      (.failure msg (some "api_error"), [("api_error", msg)])
  | .timeoutExc =>
      (.failure "OpenRouter API request timed out. Please try again." (some "timeout"), [])
  | .requestExc e =>
      (.failure ("OpenRouter API network error: " ++ e) (some "network_error"), [])
  | .otherExc e =>
      (.failure ("OpenRouter API error: " ++ e) (some "api_error"), [])

/-- What an attempt function produced: its result dictionary, the
outbound requests it sent (in order), and the `error_occurred`
notifications it emitted (in order). -/
structure AttemptOut where
  result : ApiResult
  requests : List ApiRequest
  signals : List (String × String)
deriving DecidableEq, Repr

/-- `try_openai_api(user_input)`: one POST of model `gpt-3.5-turbo` to
the OpenAI endpoint with the system prompt plus the full store, then the
status/exception classification.  `user_input` is accepted but never
used by the source. -/
def tryOpenaiApi (userInput : String) (db : List Turn) (key : String)
    (env : Nat → HttpOutcome) : AttemptOut :=
  let req : ApiRequest :=
    { url := openaiEndpoint, model := "gpt-3.5-turbo", messages := mkMessages db
      maxTokens := 500, temperature := 0.2, timeout := 30
      bearer := key, extraHeaders := [] }
  let c := classifyOpenai (env 0)
  { result := c.1, requests := [req], signals := c.2 }

/-- `try_openrouter_api(user_input)`: one POST of model `gpt-4o-mini` to
the OpenRouter endpoint (extra `HTTP-Referer` and `X-Title` headers),
then the OpenRouter classification. -/
def tryOpenrouterApi (userInput : String) (db : List Turn) (key : String)
    (env : Nat → HttpOutcome) : AttemptOut :=
  let req : ApiRequest :=
    { url := openrouterEndpoint, model := "gpt-4o-mini", messages := mkMessages db
      maxTokens := 500, temperature := 0.2, timeout := 30
      bearer := key
      extraHeaders := [("HTTP-Referer", "http://localhost:9000"), ("X-Title", "LawBot")] }
  let c := classifyOpenrouter (env 0)
  { result := c.1, requests := [req], signals := c.2 }

/-- An outcome counts as a success for the inner alternative-model loop
(and for the `if resp.status_code == 200` happy path generally) exactly
when it is an HTTP 200 whose body extraction succeeds; every other
outcome (401, 429, any other status falling off the `if/elif` chain, a
200 body whose extraction raises, and every exception) makes the loop
continue to the next model. -/
def successContent (o : HttpOutcome) : Option String :=
  match o with
  | .resp s _ p =>
    if s = 200 then
      match p with
      | .ok c => some c
      | .error _ => none
    else none
  | _ => none

/-- The request built for one model inside the `for model in
models_to_try` loop of `try_alternative_openai_api`: same endpoint,
messages and parameters as the primary attempt, varying only the model. -/
def mkAltRequest (db : List Turn) (key : String) (m : String) : ApiRequest :=
  { url := openaiEndpoint, model := m, messages := mkMessages db
    maxTokens := 500, temperature := 0.2, timeout := 30
    bearer := key, extraHeaders := [] }

/-- `models_to_try` in `try_alternative_openai_api`. -/
def modelsToTry : List String := ["gpt-3.5-turbo", "gpt-4", "gpt-4-turbo-preview"]

/-- The `for model in models_to_try` loop: return at the first model
whose response is a parseable 200; on any other outcome move to the next
model (`continue` for 401, 429 and exceptions; fall-through for other
statuses); when the list is exhausted return the unclassified failure.
`k` is the index of the next outbound call in `env`. -/
def altAttempts (db : List Turn) (key : String) (env : Nat → HttpOutcome) :
    List String → Nat → ApiResult × List ApiRequest
  | [], _ => (.failure "All OpenAI models failed" none, [])
  | m :: rest, k =>
    match successContent (env k) with
    | some c => (.success c, [mkAltRequest db key m])
    | none =>
      let r := altAttempts db key env rest (k + 1)
      (r.1, mkAltRequest db key m :: r.2)

/-- `try_alternative_openai_api(user_input)`: the model loop over
`models_to_try` against the OpenAI endpoint.  It emits no
`error_occurred` notifications. -/
def tryAlternativeOpenaiApi (userInput : String) (db : List Turn) (key : String)
    (env : Nat → HttpOutcome) : AttemptOut :=
  let r := altAttempts db key env modelsToTry 0
  { result := r.1, requests := r.2, signals := [] }

/-- The stages of one dispatch call, for stating which stages were
attempted. -/
inductive Stage where
  | primary
  | openrouter
  | alternative
deriving DecidableEq, Repr

/-- The full observable behaviour of one `get_ai_response_external_only`
call: the returned dictionary, the stages attempted in order, the
outbound requests in order, and the notifications emitted in order. -/
structure DispatchTrace where
  result : ApiResult
  stages : List Stage
  requests : List ApiRequest
  signals : List (String × String)
deriving DecidableEq, Repr

/-- `OPENAI_API_KEY.startswith('sk-or-')`, stated over the underlying
character lists so that it evaluates by reduction. -/
def startsWithSkOr (key : String) : Bool :=
  "sk-or-".data.isPrefixOf key.data

/-- The fixed message of the terminal `all_apis_failed` failure. -/
def allFailedMsg : String :=
  "All external AI services are currently unavailable. Please check your API key configuration or try again later."

/-- `get_ai_response_external_only(user_input)`.  The source is three
sequential guards (`key and not key.startswith`, `key and
key.startswith`, `key`) each returning on success; since the first two
guards are mutually exclusive this is the equivalent decision tree.
The credential is the module-level `OPENAI_API_KEY`; a missing or empty
credential is the falsy case, modelled as the empty string. -/
def getAiResponseExternalOnly (userInput : String) (db : List Turn) (key : String)
    (env : Nat → HttpOutcome) : DispatchTrace :=
  if key = "" then
    { result := .failure allFailedMsg (some "all_apis_failed")
      stages := [], requests := []
      signals := [("all_apis_failed", allFailedMsg)] }
  else if startsWithSkOr key then
    let a := tryOpenrouterApi userInput db key env
    if a.result.isSuccess then
      { result := a.result, stages := [.openrouter], requests := a.requests, signals := a.signals }
    else
      let b := tryAlternativeOpenaiApi userInput db key (fun k => env (k + a.requests.length))
      if b.result.isSuccess then
        { result := b.result, stages := [.openrouter, .alternative]
          requests := a.requests ++ b.requests, signals := a.signals ++ b.signals }
      else
        { result := .failure allFailedMsg (some "all_apis_failed")
          stages := [.openrouter, .alternative]
          requests := a.requests ++ b.requests
          signals := a.signals ++ b.signals ++ [("all_apis_failed", allFailedMsg)] }
  else
    let a := tryOpenaiApi userInput db key env
    if a.result.isSuccess then
      { result := a.result, stages := [.primary], requests := a.requests, signals := a.signals }
    else
      let b := tryAlternativeOpenaiApi userInput db key (fun k => env (k + a.requests.length))
      if b.result.isSuccess then
        { result := b.result, stages := [.primary, .alternative]
          requests := a.requests ++ b.requests, signals := a.signals ++ b.signals }
      else
        { result := .failure allFailedMsg (some "all_apis_failed")
          stages := [.primary, .alternative]
          requests := a.requests ++ b.requests
          signals := a.signals ++ b.signals ++ [("all_apis_failed", allFailedMsg)] }

/-- The JSON payload `chat_api` responds with (validation already
passed): success with the reply, or error with message and
`error_type` (`ai_response.get('error_type', 'api_error')`). -/
inductive ChatApiResult where
  | success (response : String)
  | error (error : String) (errorType : String)
deriving DecidableEq, Repr

/-- The configuration-error message of `chat_api` (and `chat_view`). -/
def configErrorMsg : String :=
  "OpenAI API key is not configured. Please set the OPENAI_API_KEY environment variable."

/-- The observable behaviour of one `chat_api` call. -/
structure ChatApiOut where
  response : ChatApiResult
  dbAfter : List Turn
  requests : List ApiRequest
  signals : List (String × String)
deriving DecidableEq, Repr

/-- `chat_api(request)` after serializer validation: check the
credential (before saving anything or making any network attempt), save
the user turn, dispatch, save the reply or error as an assistant turn,
and map the dictionary to the HTTP payload. -/
def chatApi (message : String) (db : List Turn) (key : String)
    (env : Nat → HttpOutcome) : ChatApiOut :=
  if key = "" then
    { response := .error configErrorMsg "configuration_error"
      dbAfter := db, requests := [], signals := [] }
  else
    let db1 := db ++ [{ role := "user", content := message }]
    let t := getAiResponseExternalOnly message db1 key env
    match t.result with
    | .success r =>
      { response := .success r
        dbAfter := db1 ++ [{ role := "assistant", content := r }]
        requests := t.requests, signals := t.signals }
    | .failure e et =>
      { response := .error e (et.getD "api_error")
        dbAfter := db1 ++ [{ role := "assistant", content := e }]
        requests := t.requests, signals := t.signals }

/-- Observation used to compare outbound attempts: the (endpoint, model)
pair of a request. -/
def reqPair (r : ApiRequest) : String × String := (r.url, r.model)

/-! ## Helper lemmas -/

theorem successContent_eq_some {o : HttpOutcome} {c : String}
    (h : successContent o = some c) : ∃ body, o = .resp 200 body (.ok c) := by
  cases o with
  | resp s body p =>
    simp only [successContent] at h
    split_ifs at h with h200
    · cases p with
      | ok c2 => exact ⟨body, by simp_all⟩
      | error e => simp at h
  | timeoutExc => simp [successContent] at h
  | requestExc e => simp [successContent] at h
  | otherExc e => simp [successContent] at h

theorem tryOpenaiApi_isSuccess (ui : String) (db : List Turn) (key : String)
    (env : Nat → HttpOutcome) :
    (tryOpenaiApi ui db key env).result.isSuccess = (successContent (env 0)).isSome := by
  cases o : env 0 with
  | resp s body p =>
    simp only [tryOpenaiApi, classifyOpenai, successContent, o]
    split_ifs <;> cases p <;> rfl
  | timeoutExc => simp [tryOpenaiApi, classifyOpenai, successContent, o, ApiResult.isSuccess]
  | requestExc e => simp [tryOpenaiApi, classifyOpenai, successContent, o, ApiResult.isSuccess]
  | otherExc e => simp [tryOpenaiApi, classifyOpenai, successContent, o, ApiResult.isSuccess]

theorem tryOpenrouterApi_isSuccess (ui : String) (db : List Turn) (key : String)
    (env : Nat → HttpOutcome) :
    (tryOpenrouterApi ui db key env).result.isSuccess = (successContent (env 0)).isSome := by
  cases o : env 0 with
  | resp s body p =>
    simp only [tryOpenrouterApi, classifyOpenrouter, successContent, o]
    split_ifs <;> cases p <;> rfl
  | timeoutExc => simp [tryOpenrouterApi, classifyOpenrouter, successContent, o, ApiResult.isSuccess]
  | requestExc e => simp [tryOpenrouterApi, classifyOpenrouter, successContent, o, ApiResult.isSuccess]
  | otherExc e => simp [tryOpenrouterApi, classifyOpenrouter, successContent, o, ApiResult.isSuccess]

theorem tryOpenaiApi_result_of_some (ui : String) (db : List Turn) (key : String)
    (env : Nat → HttpOutcome) (c : String) (h : successContent (env 0) = some c) :
    (tryOpenaiApi ui db key env).result = .success c := by
  obtain ⟨body, hb⟩ := successContent_eq_some h
  simp [tryOpenaiApi, classifyOpenai, hb]

theorem tryOpenrouterApi_result_of_some (ui : String) (db : List Turn) (key : String)
    (env : Nat → HttpOutcome) (c : String) (h : successContent (env 0) = some c) :
    (tryOpenrouterApi ui db key env).result = .success c := by
  obtain ⟨body, hb⟩ := successContent_eq_some h
  simp [tryOpenrouterApi, classifyOpenrouter, hb]

theorem tryOpenaiApi_requests_length (ui : String) (db : List Turn) (key : String)
    (env : Nat → HttpOutcome) : (tryOpenaiApi ui db key env).requests.length = 1 := rfl

theorem tryOpenrouterApi_requests_length (ui : String) (db : List Turn) (key : String)
    (env : Nat → HttpOutcome) : (tryOpenrouterApi ui db key env).requests.length = 1 := rfl

theorem tryOpenaiApi_not_success (ui : String) (db : List Turn) (key : String)
    (env : Nat → HttpOutcome) (h : successContent (env 0) = none) :
    (tryOpenaiApi ui db key env).result.isSuccess = false := by
  rw [tryOpenaiApi_isSuccess, h]; rfl

theorem tryOpenrouterApi_not_success (ui : String) (db : List Turn) (key : String)
    (env : Nat → HttpOutcome) (h : successContent (env 0) = none) :
    (tryOpenrouterApi ui db key env).result.isSuccess = false := by
  rw [tryOpenrouterApi_isSuccess, h]; rfl

theorem altAttempts_all_fail (db : List Turn) (key : String) (env : Nat → HttpOutcome) :
    ∀ (ms : List String) (k : Nat),
      (∀ i, i < ms.length → successContent (env (k + i)) = none) →
      altAttempts db key env ms k =
        (.failure "All OpenAI models failed" none, ms.map (mkAltRequest db key)) := by
  intro ms
  induction ms with
  | nil => intro k h; rfl
  | cons m rest ih =>
    intro k h
    have h0 : successContent (env k) = none := by simpa using h 0 (Nat.succ_pos _)
    have hrest : ∀ i, i < rest.length → successContent (env (k + 1 + i)) = none := by
      intro i hi
      have e : k + 1 + i = k + (i + 1) := by omega
      rw [e]
      exact h (i + 1) (Nat.succ_lt_succ hi)
    simp [altAttempts, h0, ih (k + 1) hrest]

theorem altAttempts_first_success (db : List Turn) (key : String) (env : Nat → HttpOutcome) :
    ∀ (ms : List String) (k j : Nat) (c : String),
      j < ms.length →
      successContent (env (k + j)) = some c →
      (∀ i, i < j → successContent (env (k + i)) = none) →
      altAttempts db key env ms k =
        (.success c, (ms.take (j + 1)).map (mkAltRequest db key)) := by
  intro ms
  induction ms with
  | nil => intro k j c hj _ _; exact absurd hj (Nat.not_lt_zero j)
  | cons m rest ih =>
    intro k j c hj hsucc hbefore
    cases j with
    | zero =>
      have h0 : successContent (env k) = some c := by simpa using hsucc
      simp [altAttempts, h0]
    | succ j2 =>
      have h0 : successContent (env k) = none := by
        simpa using hbefore 0 (Nat.succ_pos j2)
      have e : k + (j2 + 1) = k + 1 + j2 := by omega
      rw [e] at hsucc
      have hbefore2 : ∀ i, i < j2 → successContent (env (k + 1 + i)) = none := by
        intro i hi
        have e2 : k + 1 + i = k + (i + 1) := by omega
        rw [e2]
        exact hbefore (i + 1) (Nat.succ_lt_succ hi)
      have hj2 : j2 < rest.length := Nat.lt_of_succ_lt_succ hj
      simp [altAttempts, h0, ih (k + 1) j2 c hj2 hsucc hbefore2]

theorem altAttempts_requests_shape (db : List Turn) (key : String) (env : Nat → HttpOutcome) :
    ∀ (ms : List String) (k : Nat),
      ∃ n, (altAttempts db key env ms k).2 = (ms.take n).map (mkAltRequest db key) := by
  intro ms
  induction ms with
  | nil => intro k; exact ⟨0, rfl⟩
  | cons m rest ih =>
    intro k
    cases hS : successContent (env k) with
    | some c => exact ⟨1, by simp [altAttempts, hS]⟩
    | none =>
      obtain ⟨n, hn⟩ := ih (k + 1)
      exact ⟨n + 1, by simp [altAttempts, hS, hn]⟩

theorem tryAlternative_all_fail (ui : String) (db : List Turn) (key : String)
    (env : Nat → HttpOutcome)
    (h : ∀ i, i < modelsToTry.length → successContent (env i) = none) :
    (tryAlternativeOpenaiApi ui db key env).result =
      .failure "All OpenAI models failed" none := by
  have := altAttempts_all_fail db key env modelsToTry 0
    (fun i hi => by simpa using h i hi)
  simp [tryAlternativeOpenaiApi, this]

theorem tryOpenaiApi_req_shape (ui : String) (db : List Turn) (key : String)
    (env : Nat → HttpOutcome) (r : ApiRequest)
    (hr : r ∈ (tryOpenaiApi ui db key env).requests) :
    r.messages = mkMessages db ∧ r.maxTokens = 500 ∧ r.temperature = 0.2 ∧
      r.timeout = 30 := by
  simp only [tryOpenaiApi, List.mem_singleton] at hr
  subst hr
  exact ⟨rfl, rfl, rfl, rfl⟩

theorem tryOpenrouterApi_req_shape (ui : String) (db : List Turn) (key : String)
    (env : Nat → HttpOutcome) (r : ApiRequest)
    (hr : r ∈ (tryOpenrouterApi ui db key env).requests) :
    r.messages = mkMessages db ∧ r.maxTokens = 500 ∧ r.temperature = 0.2 ∧
      r.timeout = 30 := by
  simp only [tryOpenrouterApi, List.mem_singleton] at hr
  subst hr
  exact ⟨rfl, rfl, rfl, rfl⟩

theorem tryAlternativeOpenaiApi_req_shape (ui : String) (db : List Turn) (key : String)
    (env : Nat → HttpOutcome) (r : ApiRequest)
    (hr : r ∈ (tryAlternativeOpenaiApi ui db key env).requests) :
    r.messages = mkMessages db ∧ r.maxTokens = 500 ∧ r.temperature = 0.2 ∧
      r.timeout = 30 := by
  obtain ⟨n, hn⟩ := altAttempts_requests_shape db key env modelsToTry 0
  have he : (tryAlternativeOpenaiApi ui db key env).requests =
      (altAttempts db key env modelsToTry 0).2 := rfl
  rw [he, hn] at hr
  simp only [List.mem_map] at hr
  obtain ⟨m, _, rfl⟩ := hr
  exact ⟨rfl, rfl, rfl, rfl⟩

theorem dispatch_request_shape (ui : String) (db : List Turn) (key : String)
    (env : Nat → HttpOutcome) (r : ApiRequest)
    (hr : r ∈ (getAiResponseExternalOnly ui db key env).requests) :
    r.messages = mkMessages db ∧ r.maxTokens = 500 ∧ r.temperature = 0.2 ∧
      r.timeout = 30 := by
  by_cases hk : key = ""
  · rw [getAiResponseExternalOnly, if_pos hk] at hr
    simp at hr
  · cases hp : startsWithSkOr key
    · rw [getAiResponseExternalOnly, if_neg hk] at hr
      rw [hp] at hr
      simp only [Bool.false_eq_true, if_false] at hr
      split at hr
      · exact tryOpenaiApi_req_shape ui db key env r hr
      · split at hr <;>
        · simp only [List.mem_append] at hr
          rcases hr with hr | hr
          · exact tryOpenaiApi_req_shape ui db key env r hr
          · exact tryAlternativeOpenaiApi_req_shape ui db key _ r hr
    · rw [getAiResponseExternalOnly, if_neg hk] at hr
      rw [hp] at hr
      simp only [if_true] at hr
      split at hr
      · exact tryOpenrouterApi_req_shape ui db key env r hr
      · split at hr <;>
        · simp only [List.mem_append] at hr
          rcases hr with hr | hr
          · exact tryOpenrouterApi_req_shape ui db key env r hr
          · exact tryAlternativeOpenaiApi_req_shape ui db key _ r hr

theorem dispatch_pairs_sublist (ui : String) (db : List Turn) (key : String)
    (env : Nat → HttpOutcome) :
    List.Sublist ((getAiResponseExternalOnly ui db key env).requests.map reqPair)
        ((openaiEndpoint, "gpt-3.5-turbo") :: modelsToTry.map fun m => (openaiEndpoint, m)) ∨
    List.Sublist ((getAiResponseExternalOnly ui db key env).requests.map reqPair)
        ((openrouterEndpoint, "gpt-4o-mini") :: modelsToTry.map fun m => (openaiEndpoint, m)) := by
  by_cases hk : key = ""
  · left
    rw [getAiResponseExternalOnly, if_pos hk]
    exact List.nil_sublist _
  · cases hp : startsWithSkOr key
    · left
      rw [getAiResponseExternalOnly, if_neg hk, hp]
      simp only [Bool.false_eq_true, if_false]
      split
      · exact List.Sublist.cons₂ _ (List.nil_sublist _)
      · split <;>
        · obtain ⟨n, hn⟩ := altAttempts_requests_shape db key
            (fun k => env (k + (tryOpenaiApi ui db key env).requests.length)) modelsToTry 0
          have he : (tryAlternativeOpenaiApi ui db key
              (fun k => env (k + (tryOpenaiApi ui db key env).requests.length))).requests =
              (altAttempts db key
                (fun k => env (k + (tryOpenaiApi ui db key env).requests.length))
                modelsToTry 0).2 := rfl
          rw [List.map_append, he, hn, List.map_map]
          have hsub : List.Sublist ((modelsToTry.take n).map (reqPair ∘ mkAltRequest db key))
              (modelsToTry.map (reqPair ∘ mkAltRequest db key)) :=
            (List.take_sublist n modelsToTry).map _
          exact List.Sublist.cons₂ _ hsub
    · right
      rw [getAiResponseExternalOnly, if_neg hk, hp]
      simp only [if_true]
      split
      · exact List.Sublist.cons₂ _ (List.nil_sublist _)
      · split <;>
        · obtain ⟨n, hn⟩ := altAttempts_requests_shape db key
            (fun k => env (k + (tryOpenrouterApi ui db key env).requests.length)) modelsToTry 0
          have he : (tryAlternativeOpenaiApi ui db key
              (fun k => env (k + (tryOpenrouterApi ui db key env).requests.length))).requests =
              (altAttempts db key
                (fun k => env (k + (tryOpenrouterApi ui db key env).requests.length))
                modelsToTry 0).2 := rfl
          rw [List.map_append, he, hn, List.map_map]
          have hsub : List.Sublist ((modelsToTry.take n).map (reqPair ∘ mkAltRequest db key))
              (modelsToTry.map (reqPair ∘ mkAltRequest db key)) :=
            (List.take_sublist n modelsToTry).map _
          exact List.Sublist.cons₂ _ hsub

/-! ## Claim theorems -/

/-- Claim C1: for every dispatch call with an empty or absent credential,
the outcome is Failure with kind `configuration_error`, the check happens
before any network attempt, and zero outbound provider calls are made. -/
theorem C1_config_error_no_network (message : String) (db : List Turn)
    (env : Nat → HttpOutcome) :
    (chatApi message db "" env).response = .error configErrorMsg "configuration_error" ∧
    (chatApi message db "" env).requests = [] :=
  ⟨rfl, rfl⟩

/-- Claim C2: for every non-empty credential, provider selection follows
the prefix rule: if the credential does not start with `sk-or-`, only the
Primary stage (and, on its failure, the alternative-model stage) is
attempted and the OpenRouter stage never; if it does start with `sk-or-`,
the OpenRouter stage is attempted and, on its failure, the
alternative-model stage is still attempted. -/
theorem C2_provider_selection (ui : String) (db : List Turn) (key : String)
    (env : Nat → HttpOutcome) (hk : key ≠ "") :
    (startsWithSkOr key = false →
      (getAiResponseExternalOnly ui db key env).stages =
        (if (successContent (env 0)).isSome then [Stage.primary]
         else [Stage.primary, Stage.alternative])) ∧
    (startsWithSkOr key = true →
      (getAiResponseExternalOnly ui db key env).stages =
        (if (successContent (env 0)).isSome then [Stage.openrouter]
         else [Stage.openrouter, Stage.alternative])) := by
  constructor
  · intro hp
    have hA := tryOpenaiApi_isSuccess ui db key env
    cases hS : successContent (env 0) with
    | some c =>
      rw [hS] at hA
      simp [getAiResponseExternalOnly, if_neg hk, hp, hA, hS]
    | none =>
      rw [hS] at hA
      simp only [getAiResponseExternalOnly, if_neg hk, hp, hA, hS, Option.isSome_none,
        Bool.false_eq_true, if_false]
      split <;> rfl
  · intro hp
    have hB := tryOpenrouterApi_isSuccess ui db key env
    cases hS : successContent (env 0) with
    | some c =>
      rw [hS] at hB
      simp [getAiResponseExternalOnly, if_neg hk, hp, hB, hS]
    | none =>
      rw [hS] at hB
      simp only [getAiResponseExternalOnly, if_neg hk, hp, hB, hS, Option.isSome_none,
        Bool.false_eq_true, if_false, if_true]
      split <;> rfl

/-- Witness for C2 at concrete inputs: a non-prefixed key attempts
Primary then the alternative stage; an `sk-or-` key attempts OpenRouter
then the alternative stage. -/
theorem C2_provider_selection_witness :
    (getAiResponseExternalOnly "q" [] "sk-test123" (fun _ => HttpOutcome.timeoutExc)).stages =
      [Stage.primary, Stage.alternative] ∧
    (getAiResponseExternalOnly "q" [] "sk-or-abc" (fun _ => HttpOutcome.timeoutExc)).stages =
      [Stage.openrouter, Stage.alternative] := by
  constructor
  · have h := (C2_provider_selection "q" [] "sk-test123" (fun _ => HttpOutcome.timeoutExc)
      (by decide)).1 (by decide)
    simpa [successContent] using h
  · have h := (C2_provider_selection "q" [] "sk-or-abc" (fun _ => HttpOutcome.timeoutExc)
      (by decide)).2 (by decide)
    simpa [successContent] using h

/-- Claim C3: dispatch stops at the first successful stage: when the
first attempted stage (Primary for non-prefixed keys, OpenRouter for
`sk-or-` keys) gets an HTTP 200 with a parseable body, the outcome is
Success with that reply, only that one stage appears in the trace, and
exactly one outbound call is made. -/
theorem C3_first_stage_short_circuit (ui : String) (db : List Turn) (key : String)
    (env : Nat → HttpOutcome) (body c : String) (hk : key ≠ "")
    (h0 : env 0 = .resp 200 body (.ok c)) :
    (getAiResponseExternalOnly ui db key env).result = .success c ∧
    (getAiResponseExternalOnly ui db key env).stages =
      [if startsWithSkOr key then Stage.openrouter else Stage.primary] ∧
    (getAiResponseExternalOnly ui db key env).requests.length = 1 := by
  have hS : successContent (env 0) = some c := by simp [successContent, h0]
  cases hp : startsWithSkOr key
  · have hres := tryOpenaiApi_result_of_some ui db key env c hS
    have hsucc : (tryOpenaiApi ui db key env).result.isSuccess = true := by
      rw [tryOpenaiApi_isSuccess, hS]; rfl
    refine ⟨?_, ?_, ?_⟩ <;>
      simp [getAiResponseExternalOnly, if_neg hk, hp, hsucc, hres, ApiResult.isSuccess,
        tryOpenaiApi_requests_length]
  · have hres := tryOpenrouterApi_result_of_some ui db key env c hS
    have hsucc : (tryOpenrouterApi ui db key env).result.isSuccess = true := by
      rw [tryOpenrouterApi_isSuccess, hS]; rfl
    refine ⟨?_, ?_, ?_⟩ <;>
      simp [getAiResponseExternalOnly, if_neg hk, hp, hsucc, hres, ApiResult.isSuccess,
        tryOpenrouterApi_requests_length]

/-- Witness for C3 at a concrete input: a 200 response on the first call
yields Success with its reply, a single stage and a single request. -/
theorem C3_first_stage_short_circuit_witness :
    (getAiResponseExternalOnly "q" [] "sk-test123"
        (fun _ => HttpOutcome.resp 200 "B" (.ok "A tort is..."))).result =
      ApiResult.success "A tort is..." ∧
    (getAiResponseExternalOnly "q" [] "sk-test123"
        (fun _ => HttpOutcome.resp 200 "B" (.ok "A tort is..."))).stages = [Stage.primary] ∧
    (getAiResponseExternalOnly "q" [] "sk-test123"
        (fun _ => HttpOutcome.resp 200 "B" (.ok "A tort is..."))).requests.length = 1 := by
  obtain ⟨h1, h2, h3⟩ := C3_first_stage_short_circuit "q" [] "sk-test123"
    (fun _ => HttpOutcome.resp 200 "B" (.ok "A tort is...")) "B" "A tort is..."
    (by decide) rfl
  have hp : startsWithSkOr "sk-test123" = false := by decide
  rw [hp] at h2
  exact ⟨h1, by simpa using h2, h3⟩

/-- Claim C4: classification of every Primary-stage or OpenRouter-stage
attempt, and totality (no outcome escapes as an unhandled fault):
HTTP 200 yields Success with the first completion choice's text; 401
yields Failure auth_error; 429 yields Failure rate_limit; any other
status yields Failure api_error whose message includes the status code
and raw body; a timeout yields Failure timeout; a transport failure
yields Failure network_error; any other unexpected exception (including
a 200 body whose extraction raises) yields Failure api_error. -/
theorem C4_attempt_classification (ui : String) (db : List Turn) (key : String)
    (body c e : String) (p : ParseResult) (s : Nat)
    (hs200 : s ≠ 200) (hs401 : s ≠ 401) (hs429 : s ≠ 429) :
    ((tryOpenaiApi ui db key (fun _ => .resp 200 body (.ok c))).result = .success c ∧
      (tryOpenrouterApi ui db key (fun _ => .resp 200 body (.ok c))).result = .success c) ∧
    ((tryOpenaiApi ui db key (fun _ => .resp 401 body p)).result =
        .failure "Invalid OpenAI API key. Please check your API key configuration."
          (some "auth_error") ∧
      (tryOpenrouterApi ui db key (fun _ => .resp 401 body p)).result =
        .failure "Invalid OpenRouter API key. Please check your API key configuration."
          (some "auth_error")) ∧
    ((tryOpenaiApi ui db key (fun _ => .resp 429 body p)).result =
        .failure "Rate limit exceeded. Please try again later." (some "rate_limit") ∧
      (tryOpenrouterApi ui db key (fun _ => .resp 429 body p)).result =
        .failure "OpenRouter rate limit exceeded. Please try again later."
          (some "rate_limit")) ∧
    ((tryOpenaiApi ui db key (fun _ => .resp s body p)).result =
        .failure ("OpenAI API Error (Status " ++ toString s ++ "): " ++ body)
          (some "api_error") ∧
      (tryOpenrouterApi ui db key (fun _ => .resp s body p)).result =
        .failure ("OpenRouter API Error (Status " ++ toString s ++ "): " ++ body)
          (some "api_error")) ∧
    ((tryOpenaiApi ui db key (fun _ => .timeoutExc)).result =
        .failure "OpenAI API request timed out. Please try again." (some "timeout") ∧
      (tryOpenrouterApi ui db key (fun _ => .timeoutExc)).result =
        .failure "OpenRouter API request timed out. Please try again." (some "timeout")) ∧
    ((tryOpenaiApi ui db key (fun _ => .requestExc e)).result =
        .failure ("OpenAI API network error: " ++ e) (some "network_error") ∧
      (tryOpenrouterApi ui db key (fun _ => .requestExc e)).result =
        .failure ("OpenRouter API network error: " ++ e) (some "network_error")) ∧
    ((tryOpenaiApi ui db key (fun _ => .otherExc e)).result =
        .failure ("OpenAI API error: " ++ e) (some "api_error") ∧
      (tryOpenrouterApi ui db key (fun _ => .otherExc e)).result =
        .failure ("OpenRouter API error: " ++ e) (some "api_error")) ∧
    ((tryOpenaiApi ui db key (fun _ => .resp 200 body (.error e))).result =
        .failure ("OpenAI API error: " ++ e) (some "api_error") ∧
      (tryOpenrouterApi ui db key (fun _ => .resp 200 body (.error e))).result =
        .failure ("OpenRouter API error: " ++ e) (some "api_error")) := by
  refine ⟨⟨rfl, rfl⟩, ⟨rfl, rfl⟩, ⟨rfl, rfl⟩, ⟨?_, ?_⟩, ⟨rfl, rfl⟩, ⟨rfl, rfl⟩,
    ⟨rfl, rfl⟩, ⟨rfl, rfl⟩⟩
  · simp [tryOpenaiApi, classifyOpenai, hs200, hs401, hs429]
  · simp [tryOpenrouterApi, classifyOpenrouter, hs200, hs401, hs429]

/-- Witness for C4 at concrete inputs, with 500 as the non-200/401/429
status. -/
theorem C4_attempt_classification_witness :
    ((tryOpenaiApi "q" [] "k" (fun _ => .resp 200 "B" (.ok "C"))).result = .success "C" ∧
      (tryOpenrouterApi "q" [] "k" (fun _ => .resp 200 "B" (.ok "C"))).result = .success "C") ∧
    ((tryOpenaiApi "q" [] "k" (fun _ => .resp 401 "B" (.error "P"))).result =
        .failure "Invalid OpenAI API key. Please check your API key configuration."
          (some "auth_error") ∧
      (tryOpenrouterApi "q" [] "k" (fun _ => .resp 401 "B" (.error "P"))).result =
        .failure "Invalid OpenRouter API key. Please check your API key configuration."
          (some "auth_error")) ∧
    ((tryOpenaiApi "q" [] "k" (fun _ => .resp 429 "B" (.error "P"))).result =
        .failure "Rate limit exceeded. Please try again later." (some "rate_limit") ∧
      (tryOpenrouterApi "q" [] "k" (fun _ => .resp 429 "B" (.error "P"))).result =
        .failure "OpenRouter rate limit exceeded. Please try again later."
          (some "rate_limit")) ∧
    ((tryOpenaiApi "q" [] "k" (fun _ => .resp 500 "B" (.error "P"))).result =
        .failure ("OpenAI API Error (Status " ++ toString 500 ++ "): " ++ "B")
          (some "api_error") ∧
      (tryOpenrouterApi "q" [] "k" (fun _ => .resp 500 "B" (.error "P"))).result =
        .failure ("OpenRouter API Error (Status " ++ toString 500 ++ "): " ++ "B")
          (some "api_error")) ∧
    ((tryOpenaiApi "q" [] "k" (fun _ => .timeoutExc)).result =
        .failure "OpenAI API request timed out. Please try again." (some "timeout") ∧
      (tryOpenrouterApi "q" [] "k" (fun _ => .timeoutExc)).result =
        .failure "OpenRouter API request timed out. Please try again." (some "timeout")) ∧
    ((tryOpenaiApi "q" [] "k" (fun _ => .requestExc "E")).result =
        .failure ("OpenAI API network error: " ++ "E") (some "network_error") ∧
      (tryOpenrouterApi "q" [] "k" (fun _ => .requestExc "E")).result =
        .failure ("OpenRouter API network error: " ++ "E") (some "network_error")) ∧
    ((tryOpenaiApi "q" [] "k" (fun _ => .otherExc "E")).result =
        .failure ("OpenAI API error: " ++ "E") (some "api_error") ∧
      (tryOpenrouterApi "q" [] "k" (fun _ => .otherExc "E")).result =
        .failure ("OpenRouter API error: " ++ "E") (some "api_error")) ∧
    ((tryOpenaiApi "q" [] "k" (fun _ => .resp 200 "B" (.error "E"))).result =
        .failure ("OpenAI API error: " ++ "E") (some "api_error") ∧
      (tryOpenrouterApi "q" [] "k" (fun _ => .resp 200 "B" (.error "E"))).result =
        .failure ("OpenRouter API error: " ++ "E") (some "api_error")) :=
  C4_attempt_classification "q" [] "k" "B" "C" "E" (.error "P") 500
    (by decide) (by decide) (by decide)

/-- Claim C5: whenever every attempted stage fails (no outbound call
returns a parseable 200), the dispatcher returns Failure with the fixed
`all_apis_failed` message, identical regardless of which stage errors
occurred; the individual stage errors are never returned. -/
theorem C5_all_stages_fail (ui : String) (db : List Turn) (key : String)
    (env : Nat → HttpOutcome) (hfail : ∀ k, successContent (env k) = none) :
    (getAiResponseExternalOnly ui db key env).result =
      .failure allFailedMsg (some "all_apis_failed") := by
  by_cases hk : key = ""
  · simp [getAiResponseExternalOnly, hk]
  · cases hp : startsWithSkOr key
    · have hA := tryOpenaiApi_not_success ui db key env (hfail 0)
      have hb := tryAlternative_all_fail ui db key
        (fun k => env (k + (tryOpenaiApi ui db key env).requests.length))
        (fun i _ => hfail _)
      have hb2 : (tryAlternativeOpenaiApi ui db key
          (fun k => env (k + (tryOpenaiApi ui db key env).requests.length))).result.isSuccess =
            false := by rw [hb]; rfl
      simp [getAiResponseExternalOnly, if_neg hk, hp, hA, hb2]
    · have hB := tryOpenrouterApi_not_success ui db key env (hfail 0)
      have hb := tryAlternative_all_fail ui db key
        (fun k => env (k + (tryOpenrouterApi ui db key env).requests.length))
        (fun i _ => hfail _)
      have hb2 : (tryAlternativeOpenaiApi ui db key
          (fun k => env (k + (tryOpenrouterApi ui db key env).requests.length))).result.isSuccess =
            false := by rw [hb]; rfl
      simp [getAiResponseExternalOnly, if_neg hk, hp, hB, hb2]

/-- Witness for C5 at a concrete input: with a timeout on every call,
the result is the fixed all-apis-failed Failure. -/
theorem C5_all_stages_fail_witness :
    (getAiResponseExternalOnly "q" [] "sk-test123" (fun _ => HttpOutcome.timeoutExc)).result =
      .failure allFailedMsg (some "all_apis_failed") :=
  C5_all_stages_fail "q" [] "sk-test123" (fun _ => HttpOutcome.timeoutExc) (fun _ => rfl)

/-- Claim C6 counterexample: at the Primary stage, a timeout Failure
emits zero notifications, contradicting the claim that every failure
kind (including timeout) emits exactly one. -/
theorem C6_counterexample :
    (tryOpenaiApi "q" [] "k" (fun _ => HttpOutcome.timeoutExc)).result =
      ApiResult.failure "OpenAI API request timed out. Please try again." (some "timeout") ∧
    (tryOpenaiApi "q" [] "k" (fun _ => HttpOutcome.timeoutExc)).signals = [] :=
  ⟨rfl, rfl⟩

/-- Claim C6 as amended: a Primary- or OpenRouter-stage Failure produced
by an HTTP status response (auth_error on 401, rate_limit on 429,
api_error on any other non-200 status) emits exactly one error
notification (type, message); Failures produced by exceptions (timeout,
network_error, unexpected exception mapped to api_error) emit none; a
successful attempt emits none; and the inner alternative-model loop
emits none. -/
theorem C6_amended_signals (ui : String) (db : List Turn) (key : String)
    (env : Nat → HttpOutcome) (body c e : String) (p : ParseResult) (s : Nat)
    (hs200 : s ≠ 200) (hs401 : s ≠ 401) (hs429 : s ≠ 429) :
    ((tryOpenaiApi ui db key (fun _ => .resp 401 body p)).signals =
        [("auth_error", "Invalid OpenAI API key. Please check your API key configuration.")] ∧
      (tryOpenrouterApi ui db key (fun _ => .resp 401 body p)).signals =
        [("auth_error", "Invalid OpenRouter API key. Please check your API key configuration.")]) ∧
    ((tryOpenaiApi ui db key (fun _ => .resp 429 body p)).signals =
        [("rate_limit", "Rate limit exceeded. Please try again later.")] ∧
      (tryOpenrouterApi ui db key (fun _ => .resp 429 body p)).signals =
        [("rate_limit", "OpenRouter rate limit exceeded. Please try again later.")]) ∧
    ((tryOpenaiApi ui db key (fun _ => .resp s body p)).signals =
        [("api_error", "OpenAI API Error (Status " ++ toString s ++ "): " ++ body)] ∧
      (tryOpenrouterApi ui db key (fun _ => .resp s body p)).signals =
        [("api_error", "OpenRouter API Error (Status " ++ toString s ++ "): " ++ body)]) ∧
    ((tryOpenaiApi ui db key (fun _ => .resp 200 body (.ok c))).signals = [] ∧
      (tryOpenrouterApi ui db key (fun _ => .resp 200 body (.ok c))).signals = []) ∧
    ((tryOpenaiApi ui db key (fun _ => .resp 200 body (.error e))).signals = [] ∧
      (tryOpenrouterApi ui db key (fun _ => .resp 200 body (.error e))).signals = []) ∧
    ((tryOpenaiApi ui db key (fun _ => .timeoutExc)).signals = [] ∧
      (tryOpenrouterApi ui db key (fun _ => .timeoutExc)).signals = []) ∧
    ((tryOpenaiApi ui db key (fun _ => .requestExc e)).signals = [] ∧
      (tryOpenrouterApi ui db key (fun _ => .requestExc e)).signals = []) ∧
    ((tryOpenaiApi ui db key (fun _ => .otherExc e)).signals = [] ∧
      (tryOpenrouterApi ui db key (fun _ => .otherExc e)).signals = []) ∧
    (tryAlternativeOpenaiApi ui db key env).signals = [] := by
  refine ⟨⟨rfl, rfl⟩, ⟨rfl, rfl⟩, ⟨?_, ?_⟩, ⟨rfl, rfl⟩, ⟨rfl, rfl⟩, ⟨rfl, rfl⟩,
    ⟨rfl, rfl⟩, ⟨rfl, rfl⟩, rfl⟩
  · simp [tryOpenaiApi, classifyOpenai, hs200, hs401, hs429]
  · simp [tryOpenrouterApi, classifyOpenrouter, hs200, hs401, hs429]

/-- Witness for the amended C6 at concrete inputs, with 500 as the
non-200/401/429 status. -/
theorem C6_amended_signals_witness :
    ((tryOpenaiApi "q" [] "k" (fun _ => .resp 401 "B" (.error "P"))).signals =
        [("auth_error", "Invalid OpenAI API key. Please check your API key configuration.")] ∧
      (tryOpenrouterApi "q" [] "k" (fun _ => .resp 401 "B" (.error "P"))).signals =
        [("auth_error", "Invalid OpenRouter API key. Please check your API key configuration.")]) ∧
    ((tryOpenaiApi "q" [] "k" (fun _ => .resp 429 "B" (.error "P"))).signals =
        [("rate_limit", "Rate limit exceeded. Please try again later.")] ∧
      (tryOpenrouterApi "q" [] "k" (fun _ => .resp 429 "B" (.error "P"))).signals =
        [("rate_limit", "OpenRouter rate limit exceeded. Please try again later.")]) ∧
    ((tryOpenaiApi "q" [] "k" (fun _ => .resp 500 "B" (.error "P"))).signals =
        [("api_error", "OpenAI API Error (Status " ++ toString 500 ++ "): " ++ "B")] ∧
      (tryOpenrouterApi "q" [] "k" (fun _ => .resp 500 "B" (.error "P"))).signals =
        [("api_error", "OpenRouter API Error (Status " ++ toString 500 ++ "): " ++ "B")]) ∧
    ((tryOpenaiApi "q" [] "k" (fun _ => .resp 200 "B" (.ok "C"))).signals = [] ∧
      (tryOpenrouterApi "q" [] "k" (fun _ => .resp 200 "B" (.ok "C"))).signals = []) ∧
    ((tryOpenaiApi "q" [] "k" (fun _ => .resp 200 "B" (.error "E"))).signals = [] ∧
      (tryOpenrouterApi "q" [] "k" (fun _ => .resp 200 "B" (.error "E"))).signals = []) ∧
    ((tryOpenaiApi "q" [] "k" (fun _ => .timeoutExc)).signals = [] ∧
      (tryOpenrouterApi "q" [] "k" (fun _ => .timeoutExc)).signals = []) ∧
    ((tryOpenaiApi "q" [] "k" (fun _ => .requestExc "E")).signals = [] ∧
      (tryOpenrouterApi "q" [] "k" (fun _ => .requestExc "E")).signals = []) ∧
    ((tryOpenaiApi "q" [] "k" (fun _ => .otherExc "E")).signals = [] ∧
      (tryOpenrouterApi "q" [] "k" (fun _ => .otherExc "E")).signals = []) ∧
    (tryAlternativeOpenaiApi "q" [] "k" (fun _ => HttpOutcome.timeoutExc)).signals = [] :=
  C6_amended_signals "q" [] "k" (fun _ => HttpOutcome.timeoutExc) "B" "C" "E"
    (.error "P") 500 (by decide) (by decide) (by decide)

/-- Claim C10: the `user_input` argument is dead in all three attempt
functions and in the dispatcher: with the store contents, credential and
network environment fixed, any two user text values give identical
outcomes, identical outbound requests and identical notifications. -/
theorem C10_user_input_ignored (ui1 ui2 : String) (db : List Turn) (key : String)
    (env : Nat → HttpOutcome) :
    getAiResponseExternalOnly ui1 db key env = getAiResponseExternalOnly ui2 db key env ∧
    tryOpenaiApi ui1 db key env = tryOpenaiApi ui2 db key env ∧
    tryOpenrouterApi ui1 db key env = tryOpenrouterApi ui2 db key env ∧
    tryAlternativeOpenaiApi ui1 db key env = tryAlternativeOpenaiApi ui2 db key env :=
  ⟨rfl, rfl, rfl, rfl⟩

/-- Claim C7 counterexample: the system instruction actually sent is the
source string with the colon and inner quotes (`always say: 'This is not
legal advice.'`), not the wording quoted by the claim, so the claim as
stated is false on any concrete attempt. -/
theorem C7_counterexample :
    ((tryOpenaiApi "q" [] "k" (fun _ => HttpOutcome.timeoutExc)).requests.map
        (fun r => r.messages)) = [[systemPrompt]] ∧
    systemPrompt ≠
      { role := "system"
        content := "You are a legal assistant. Provide general legal information, but always say this is not legal advice." } :=
  ⟨rfl, by decide⟩

set_option maxHeartbeats 1600000 in
/-- Claim C7 as amended: every provider attempt sends a single request
whose message list is the fixed system instruction of the source
(`You are a legal assistant. Provide general legal information, but
always say: 'This is not legal advice.'`) prepended to the full turn
history in chronological order, including the just-saved user turn, with
max_tokens 500, temperature 0.2 and a request timeout of 30 time
units. -/
theorem C7_amended_request_shape (message : String) (db : List Turn) (key : String)
    (env : Nat → HttpOutcome) (hk : key ≠ "") :
    ((chatApi message db key env).requests.all fun r =>
      decide (r.messages = systemPrompt :: (db ++ [{ role := "user", content := message }]) ∧
        r.maxTokens = 500 ∧ r.temperature = 0.2 ∧ r.timeout = 30)) = true ∧
    (tryOpenaiApi message (db ++ [{ role := "user", content := message }]) key
        env).requests.length = 1 ∧
    (tryOpenrouterApi message (db ++ [{ role := "user", content := message }]) key
        env).requests.length = 1 := by
  refine ⟨?_, rfl, rfl⟩
  rw [List.all_eq_true]
  intro r hr
  have he : (chatApi message db key env).requests =
      (getAiResponseExternalOnly message (db ++ [{ role := "user", content := message }])
        key env).requests := by
    simp only [chatApi, if_neg hk]
    cases h : (getAiResponseExternalOnly message
        (db ++ [{ role := "user", content := message }]) key env).result <;> rfl
  rw [he] at hr
  have hs := dispatch_request_shape message
    (db ++ [{ role := "user", content := message }]) key env r hr
  simp only [decide_eq_true_eq]
  exact hs

/-- Witness for the amended C7 at a concrete input. -/
theorem C7_amended_request_shape_witness :
    ((chatApi "What is a tort?" [] "sk-test123"
        (fun _ => HttpOutcome.timeoutExc)).requests.all fun r =>
      decide (r.messages =
          systemPrompt :: ([] ++ [{ role := "user", content := "What is a tort?" }]) ∧
        r.maxTokens = 500 ∧ r.temperature = 0.2 ∧ r.timeout = 30)) = true ∧
    (tryOpenaiApi "What is a tort?"
        ([] ++ [{ role := "user", content := "What is a tort?" }]) "sk-test123"
        (fun _ => HttpOutcome.timeoutExc)).requests.length = 1 ∧
    (tryOpenrouterApi "What is a tort?"
        ([] ++ [{ role := "user", content := "What is a tort?" }]) "sk-test123"
        (fun _ => HttpOutcome.timeoutExc)).requests.length = 1 :=
  C7_amended_request_shape "What is a tort?" [] "sk-test123"
    (fun _ => HttpOutcome.timeoutExc) (by decide)

/-- Claim C8: the alternative-model stage tries the fixed ordered list
gpt-3.5-turbo, gpt-4, gpt-4-turbo-preview against the Primary endpoint,
returning Success at the first model whose response is a parseable HTTP
200 (any 401, 429, other status or exception moves to the next model);
if the list is exhausted, it returns the plain failure with no
error-kind classification; and its requests are always the per-model
requests for a prefix of that list. -/
theorem C8_alternative_stage (ui : String) (db : List Turn) (key : String)
    (env1 env2 env3 : Nat → HttpOutcome) (j : Nat) (c : String)
    (hj : j < modelsToTry.length)
    (hsucc : successContent (env1 j) = some c)
    (hbefore : ∀ i, i < j → successContent (env1 i) = none)
    (hfail : ∀ i, i < modelsToTry.length → successContent (env2 i) = none) :
    ((tryAlternativeOpenaiApi ui db key env1).result = .success c ∧
      (tryAlternativeOpenaiApi ui db key env1).requests =
        (modelsToTry.take (j + 1)).map (mkAltRequest db key)) ∧
    ((tryAlternativeOpenaiApi ui db key env2).result =
        .failure "All OpenAI models failed" none ∧
      (tryAlternativeOpenaiApi ui db key env2).requests =
        modelsToTry.map (mkAltRequest db key)) ∧
    (∃ n, (tryAlternativeOpenaiApi ui db key env3).requests =
        (modelsToTry.take n).map (mkAltRequest db key)) := by
  have h1 := altAttempts_first_success db key env1 modelsToTry 0 j c hj
    (by simpa using hsucc) (fun i hi => by simpa using hbefore i hi)
  have h2 := altAttempts_all_fail db key env2 modelsToTry 0
    (fun i hi => by simpa using hfail i hi)
  refine ⟨⟨?_, ?_⟩, ⟨?_, ?_⟩, ?_⟩
  · show (altAttempts db key env1 modelsToTry 0).1 = _
    rw [h1]
  · show (altAttempts db key env1 modelsToTry 0).2 = _
    rw [h1]
  · show (altAttempts db key env2 modelsToTry 0).1 = _
    rw [h2]
  · show (altAttempts db key env2 modelsToTry 0).2 = _
    rw [h2]
  · exact altAttempts_requests_shape db key env3 modelsToTry 0

/-- Witness for C8 at concrete inputs: the second model succeeds after
the first fails, and a permanently failing environment exhausts the
list. -/
theorem C8_alternative_stage_witness :
    ((tryAlternativeOpenaiApi "q" [] "k"
        (fun k => if k = 1 then HttpOutcome.resp 200 "B" (.ok "C")
                  else HttpOutcome.timeoutExc)).result = .success "C" ∧
      (tryAlternativeOpenaiApi "q" [] "k"
        (fun k => if k = 1 then HttpOutcome.resp 200 "B" (.ok "C")
                  else HttpOutcome.timeoutExc)).requests =
        (modelsToTry.take 2).map (mkAltRequest [] "k")) ∧
    ((tryAlternativeOpenaiApi "q" [] "k" (fun _ => HttpOutcome.timeoutExc)).result =
        .failure "All OpenAI models failed" none ∧
      (tryAlternativeOpenaiApi "q" [] "k" (fun _ => HttpOutcome.timeoutExc)).requests =
        modelsToTry.map (mkAltRequest [] "k")) ∧
    (∃ n, (tryAlternativeOpenaiApi "q" [] "k"
        (fun _ => HttpOutcome.timeoutExc)).requests =
        (modelsToTry.take n).map (mkAltRequest [] "k")) :=
  C8_alternative_stage "q" [] "k"
    (fun k => if k = 1 then HttpOutcome.resp 200 "B" (.ok "C") else HttpOutcome.timeoutExc)
    (fun _ => HttpOutcome.timeoutExc) (fun _ => HttpOutcome.timeoutExc) 1 "C"
    (by decide) rfl
    (fun i hi => by
      obtain rfl := Nat.lt_one_iff.mp hi
      rfl)
    (fun i _ => rfl)

/-- Claim C9 counterexample: with a non-prefixed key and every call
failing, the dispatch trace repeats the (Primary endpoint, gpt-3.5-turbo)
pair — once from the Primary stage and once as the first alternative
model — so the (endpoint, model) pairs of one dispatch call are not all
distinct. -/
theorem C9_counterexample :
    ((getAiResponseExternalOnly "q" [] "k" (fun _ => HttpOutcome.timeoutExc)).requests.map
        reqPair) =
      [(openaiEndpoint, "gpt-3.5-turbo"), (openaiEndpoint, "gpt-3.5-turbo"),
        (openaiEndpoint, "gpt-4"), (openaiEndpoint, "gpt-4-turbo-preview")] ∧
    ¬ List.Nodup
      [(openaiEndpoint, "gpt-3.5-turbo"), (openaiEndpoint, "gpt-3.5-turbo"),
        (openaiEndpoint, "gpt-4"), (openaiEndpoint, "gpt-4-turbo-preview")] :=
  ⟨rfl, by decide⟩

/-- Claim C9 as amended: within a single dispatch call no (endpoint,
model) pair is attempted more than once, except that the pair (Primary
endpoint, gpt-3.5-turbo) may be attempted up to twice — once by the
Primary stage and once as the first model of the alternative stage. -/
theorem C9_amended_no_repeats (ui : String) (db : List Turn) (key : String)
    (env : Nat → HttpOutcome) (p : String × String)
    (hp2 : p ≠ (openaiEndpoint, "gpt-3.5-turbo")) :
    List.count p ((getAiResponseExternalOnly ui db key env).requests.map reqPair) ≤ 1 ∧
    List.count (openaiEndpoint, "gpt-3.5-turbo")
      ((getAiResponseExternalOnly ui db key env).requests.map reqPair) ≤ 2 := by
  obtain h | h := dispatch_pairs_sublist ui db key env
  · constructor
    · by_cases hB : p = (openaiEndpoint, "gpt-4")
      · subst hB
        exact le_trans (h.count_le _) (by decide)
      by_cases hC : p = (openaiEndpoint, "gpt-4-turbo-preview")
      · subst hC
        exact le_trans (h.count_le _) (by decide)
      refine le_trans (h.count_le p) ?_
      have h0 : List.count p
          ((openaiEndpoint, "gpt-3.5-turbo") :: modelsToTry.map fun m => (openaiEndpoint, m)) =
            0 := by
        apply List.count_eq_zero_of_not_mem
        intro hmem
        simp only [modelsToTry, List.map_cons, List.map_nil, List.mem_cons,
          List.not_mem_nil, or_false] at hmem
        rcases hmem with h1 | h1 | h1 | h1 <;> first
          | exact hp2 h1
          | exact hB h1
          | exact hC h1
      rw [h0]
      exact Nat.zero_le 1
    · exact le_trans (h.count_le _) (by decide)
  · constructor
    · by_cases hpO : p = (openrouterEndpoint, "gpt-4o-mini")
      · subst hpO
        exact le_trans (h.count_le _) (by decide)
      by_cases hB : p = (openaiEndpoint, "gpt-4")
      · subst hB
        exact le_trans (h.count_le _) (by decide)
      by_cases hC : p = (openaiEndpoint, "gpt-4-turbo-preview")
      · subst hC
        exact le_trans (h.count_le _) (by decide)
      refine le_trans (h.count_le p) ?_
      have h0 : List.count p
          ((openrouterEndpoint, "gpt-4o-mini") :: modelsToTry.map fun m => (openaiEndpoint, m)) =
            0 := by
        apply List.count_eq_zero_of_not_mem
        intro hmem
        simp only [modelsToTry, List.map_cons, List.map_nil, List.mem_cons,
          List.not_mem_nil, or_false] at hmem
        rcases hmem with h1 | h1 | h1 | h1 <;> first
          | exact hpO h1
          | exact hp2 h1
          | exact hB h1
          | exact hC h1
      rw [h0]
      exact Nat.zero_le 1
    · exact le_trans (h.count_le _) (by decide)

/-- Witness for the amended C9 at a concrete input and pair. -/
theorem C9_amended_no_repeats_witness :
    List.count (openaiEndpoint, "gpt-4")
      ((getAiResponseExternalOnly "q" [] "k"
        (fun _ => HttpOutcome.timeoutExc)).requests.map reqPair) ≤ 1 ∧
    List.count (openaiEndpoint, "gpt-3.5-turbo")
      ((getAiResponseExternalOnly "q" [] "k"
        (fun _ => HttpOutcome.timeoutExc)).requests.map reqPair) ≤ 2 :=
  C9_amended_no_repeats "q" [] "k" (fun _ => HttpOutcome.timeoutExc)
    (openaiEndpoint, "gpt-4") (by decide)

end LawBot
